import Mathlib

/-!
Shallow embedding of `src/index.js` (class `NoSleepJs`) and of the narrow
contracts of its collaborators.  The instance fields of the JS object are
modelled by the structure `NoSleepJs`; the host platform (wake-lock
sentinels, interval timers, page navigation) by `Platform`.  JS fields that
may be `undefined`/`null` are `Option`s: both JS values are falsy in every
truth test the source performs, so a single `none` is faithful.

The imported modules `visibility-listener.js`, `no-sleep-element.js` and
`detect.js` are part of the repository but are not present under `src/`;
their behaviour is modelled from the spec where noted.
-/

/-- Modelled from the spec: the Platform Capability Detector (spec 4.1) —
`isNativeWakeLockSupported()` (src line 14 reads `"wakeLock" in navigator`)
and `isOldIOS()` (imported from the missing `detect.js`).  Both are modelled
as boolean answers the environment gives at the moment they are called. -/
structure Caps where
  native : Bool
  oldIOS : Bool
deriving DecidableEq

/-- A JS error value as thrown by the platform: its `name` (classification)
and `message`, as used by `catch (err)` in `enable` (src lines 64-67). -/
structure JsErr where
  name : String
  msg : String
deriving DecidableEq

/-- Modelled from the spec: the state of the hidden media surface owned by
`NoSleepElement` (the missing `no-sleep-element.js`; spec 4.4): whether it is
playing, and whether `setMetadataListener()` has been called. -/
structure NoSleepElement where
  playing : Bool
  metaListener : Bool
deriving DecidableEq

/-- Instance fields of a `NoSleepJs` object (src lines 21-41).
`wakeLock` is `this._wakeLock` (a sentinel id), `visListening` is the
`VisibilityListener` (`none` = field never created; `some b` = the listener
object exists and `b` says whether its subscription is installed),
`noSleepTimer` the interval id, `media` the `NoSleepElement`.
`releaseListeners` records the sentinel ids on which
`addEventListener("release", this._onWakeLockRelease)` was called. -/
structure NoSleepJs where
  enabled : Bool
  wakeLock : Option Nat
  visListening : Option Bool
  noSleepTimer : Option Nat
  media : Option NoSleepElement
  releaseListeners : List Nat
deriving DecidableEq

/-- Host-platform state: the wake-lock sentinels currently held active by the
platform, a counter for fresh sentinel ids, the active interval timers with
their period in milliseconds, a counter for fresh timer ids, and the page
(`window.location.href`, a count of navigations performed, and a count of
`window.stop` calls). -/
structure Platform where
  activeLocks : List Nat
  nextLockId : Nat
  timers : List (Nat × Nat)
  nextTimerId : Nat
  href : String
  navigations : Nat
  stops : Nat
deriving DecidableEq

/-- The whole system: one `NoSleepJs` instance and the platform. -/
structure Sys where
  ns : NoSleepJs
  pf : Platform
deriving DecidableEq

/-- A platform state with no active locks or timers and page URL `u`. -/
def pfInit (u : String) : Platform :=
  { activeLocks := [], nextLockId := 0, timers := [], nextTimerId := 0,
    href := u, navigations := 0, stops := 0 }

/-- The constructor (src lines 21-41): `enabled = false`; then, dispatching
on the capability answers given at construction time, either declare
`_wakeLock = null` and create the `VisibilityListener` (modelled from the
spec: creating the listener installs its visibility subscription, spec 3
"created alongside a native-lock strategy"), or declare `noSleepTimer =
null`, or create the `NoSleepElement` and call `setMetadataListener()`.
Fields of the branches not taken are left undefined (`none`). -/
def NoSleepJs.construct (c : Caps) (pf : Platform) : Sys :=
  if c.native then
    { ns := { enabled := false, wakeLock := none, visListening := some true,
              noSleepTimer := none, media := none, releaseListeners := [] },
      pf := pf }
  else if c.oldIOS then
    { ns := { enabled := false, wakeLock := none, visListening := none,
              noSleepTimer := none, media := none, releaseListeners := [] },
      pf := pf }
  else
    { ns := { enabled := false, wakeLock := none, visListening := none,
              noSleepTimer := none,
              media := some { playing := false, metaListener := true },
              releaseListeners := [] },
      pf := pf }

/-- The getter `isEnabled` (src lines 47-49): a pure read of `enabled`. -/
def NoSleepJs.isEnabled (n : NoSleepJs) : Bool :=
  n.enabled

/-- `_onWakeLockRelease` (src lines 80-82): it only calls `console.log`, so
it does not change any state. -/
def NoSleepJs.onWakeLockRelease (s : Sys) : Sys :=
  s

/-- The legacy arm of `disable()` (src lines 131-136): if `noSleepTimer` is
truthy, `clearInterval` it and null the field.  (`this.enabled = false`,
src line 140, is applied here as well since it runs unconditionally.) -/
def NoSleepJs.disableLegacy (s : Sys) : Sys :=
  match s.ns.noSleepTimer with
  | some tid =>
    { ns := { s.ns with noSleepTimer := none, enabled := false },
      pf := { s.pf with timers := s.pf.timers.filter (fun t => t.1 != tid) } }
  | none => { s with ns := { s.ns with enabled := false } }

/-- The native arm of `disable()` (src lines 123-130): if `_wakeLock` is
truthy, `release()` it (the platform drops the sentinel); null `_wakeLock`;
if `visibilityListener` is truthy, `removeListeners()` (modelled from the
spec: removes the visibility subscription, idempotently — spec 4.3).
`this.enabled = false` (src line 140) runs unconditionally. -/
def NoSleepJs.disableNative (s : Sys) : Sys :=
  let pf1 :=
    match s.ns.wakeLock with
    | some id => { s.pf with activeLocks := s.pf.activeLocks.filter (fun l => l != id) }
    | none => s.pf
  let vis :=
    match s.ns.visListening with
    | some _ => some false
    | none => none
  { ns := { s.ns with wakeLock := none, visListening := vis, enabled := false },
    pf := pf1 }

/-- The media arm of `disable()` (src lines 137-139): `noSleepElement.pause()`
(modelled from the spec: stops playback, always safe — spec 4.4), then
`enabled = false`.  If the `noSleepElement` field is undefined (it was never
created), the property access throws before any mutation: `none`. -/
def NoSleepJs.disableMedia (s : Sys) : Option Sys :=
  match s.ns.media with
  | some m =>
    some { s with ns := { s.ns with
                          media := some { m with playing := false },
                          enabled := false } }
  | none => none

/-- `disable()` (src lines 122-141): re-evaluates the capability predicates
at call time (`isNativeWakeLockSupported()`, `isOldIOS()`) and dispatches on
their current answers `c`.  `none` models an uncaught throw (which can only
happen in the media arm, before any mutation). -/
def NoSleepJs.disable (c : Caps) (s : Sys) : Option Sys :=
  if c.native then some (NoSleepJs.disableNative s)
  else if c.oldIOS then some (NoSleepJs.disableLegacy s)
  else NoSleepJs.disableMedia s

/-- `_enableOldIOS` (src lines 89-99): first `this.disable()` — inside this
branch both predicates answer legacy, so the call resolves to the legacy arm
— then `setInterval(tick, 15000)` storing the fresh timer id, then
`enabled = true`. -/
def NoSleepJs.enableOldIOS (s : Sys) : Sys :=
  let s1 := NoSleepJs.disableLegacy s
  let tid := s1.pf.nextTimerId
  { ns := { s1.ns with noSleepTimer := some tid, enabled := true },
    pf := { s1.pf with
            timers := s1.pf.timers ++ [(tid, 15000)],
            nextTimerId := tid + 1 } }

/-- `_enableVideoPlayback` (src lines 107-116): `await this.noSleepElement.play()`
(modelled from the spec: playback starts or the platform rejects with an
autoplay error — spec 4.4; the platform's answer is the input `playRes`);
on success `enabled = true`, on failure `enabled = false` and the error is
rethrown.  If `noSleepElement` is undefined, the property access throws a
`TypeError` inside the `try`, so the `catch` still runs: `enabled = false`
and the error propagates. -/
def NoSleepJs.enableVideoPlayback (playRes : Except JsErr Unit) (s : Sys) :
    Sys × Option JsErr :=
  match s.ns.media with
  | none =>
    ({ s with ns := { s.ns with enabled := false } },
     some { name := "TypeError", msg := "undefined has no play" })
  | some m =>
    match playRes with
    | .ok _ =>
      ({ s with ns := { s.ns with
                        media := some { m with playing := true },
                        enabled := true } }, none)
    | .error e =>
      ({ s with ns := { s.ns with enabled := false } }, some e)

/-- `enable()` (src lines 57-74): re-evaluates the capability predicates at
call time and dispatches on their current answers `c`.  Native arm: request
a lock (the platform's answer is `lockRes`); on success store the fresh
sentinel in `_wakeLock`, set `enabled = true` and register the release
handler on that sentinel; on failure set `enabled = false` and rethrow.
The error component models the promise rejection of the `async` method. -/
def NoSleepJs.enable (c : Caps) (lockRes : Except JsErr Unit)
    (playRes : Except JsErr Unit) (s : Sys) : Sys × Option JsErr :=
  if c.native then
    match lockRes with
    | .ok _ =>
      let id := s.pf.nextLockId
      ({ ns := { s.ns with
                 wakeLock := some id,
                 enabled := true,
                 releaseListeners := s.ns.releaseListeners ++ [id] },
         pf := { s.pf with
                 activeLocks := s.pf.activeLocks ++ [id],
                 nextLockId := id + 1 } }, none)
    | .error e =>
      ({ s with ns := { s.ns with enabled := false } }, some e)
  else if c.oldIOS then
    (NoSleepJs.enableOldIOS s, none)
  else
    NoSleepJs.enableVideoPlayback playRes s

/-- JS `href.split("#")[0]`: the part of the URL before the first `#`. -/
def stripFragment (u : String) : String :=
  (u.splitOn "#").headD u

/-- A platform-triggered release of sentinel `id` (spec 3: released
implicitly by the platform, observed via the release notification): the
platform drops the sentinel; if the instance registered its release handler
on `id`, `_onWakeLockRelease` runs (it only logs). -/
def releaseEvent (id : Nat) (s : Sys) : Sys :=
  let s1 := { s with pf := { s.pf with
    activeLocks := s.pf.activeLocks.filter (fun l => l != id) } }
  if s.ns.releaseListeners.contains id then NoSleepJs.onWakeLockRelease s1
  else s1

/-- Modelled from the spec: a page-becomes-visible transition (spec 4.3).
The `VisibilityListener` was constructed with `this.enable.bind(this)`
(src line 32); if its subscription is installed it invokes that callback,
i.e. `enable()` under the current capability answers; otherwise nothing
happens. -/
def visibleEvent (c : Caps) (lockRes playRes : Except JsErr Unit) (s : Sys) :
    Sys × Option JsErr :=
  match s.ns.visListening with
  | some true => NoSleepJs.enable c lockRes playRes s
  | _ => (s, none)

/-- One firing of the legacy interval callback (src lines 92-97): it runs
only while some interval timer is active; if `document.hidden` it does
nothing; otherwise it navigates to `href.split("#")[0]` and schedules
`window.stop`. -/
def tickEvent (hidden : Bool) (s : Sys) : Sys :=
  if s.pf.timers.isEmpty then s
  else if hidden then s
  else { s with pf := { s.pf with
                        href := stripFragment s.pf.href,
                        navigations := s.pf.navigations + 1,
                        stops := s.pf.stops + 1 } }

/-- The events that can hit the system: an `enable()` call (with the
platform's answers for the lock request and the playback attempt), a
`disable()` call, a platform-triggered release of sentinel `id`, a
page-becomes-visible transition, and a legacy timer tick. -/
inductive Ev where
  | en (lockRes playRes : Except JsErr Unit)
  | dis
  | rel (id : Nat)
  | vis (lockRes playRes : Except JsErr Unit)
  | tick (hidden : Bool)

/-- One step of the system under capability answers `c`.  A `disable()` that
throws leaves the state unchanged (the media arm throws before mutating). -/
def step (c : Caps) (e : Ev) (s : Sys) : Sys :=
  match e with
  | .en lr pr => (NoSleepJs.enable c lr pr s).1
  | .dis => (NoSleepJs.disable c s).getD s
  | .rel id => releaseEvent id s
  | .vis lr pr => (visibleEvent c lr pr s).1
  | .tick h => tickEvent h s

/-- Run a list of events under fixed capability answers `c`. -/
def run (c : Caps) (s : Sys) : List Ev → Sys
  | [] => s
  | e :: es => run c (step c e s) es

/-- The number of underlying sleep-inhibiting resources currently active:
held wake-lock sentinels, running interval timers, and the media surface
when it is playing. -/
def activeResources (s : Sys) : Nat :=
  s.pf.activeLocks.length + s.pf.timers.length +
    (match s.ns.media with
     | some m => if m.playing then 1 else 0
     | none => 0)

/-- Modelled from the spec: the tagged strategy variant of spec 9 — the
Sleep Inhibitor selects exactly one of Native, Legacy, Media (spec 2,
spec 4.2). -/
inductive Strategy where
  | native
  | legacy
  | media
deriving DecidableEq

/-- Modelled from the spec: the strategy the dispatch table of spec 4.2
selects for a given pair of capability answers. -/
def strategyOf (c : Caps) : Strategy :=
  if c.native then Strategy.native
  else if c.oldIOS then Strategy.legacy
  else Strategy.media

/-- Modelled from the spec: `enable()` of the fixed-strategy dispatcher
(spec 2: "All subsequent enable/disable calls dispatch through that fixed
strategy"); each arm is the corresponding arm of the source's `enable`. -/
def enableWith (st : Strategy) (lockRes : Except JsErr Unit)
    (playRes : Except JsErr Unit) (s : Sys) : Sys × Option JsErr :=
  match st with
  | Strategy.native =>
    match lockRes with
    | .ok _ =>
      let id := s.pf.nextLockId
      ({ ns := { s.ns with
                 wakeLock := some id,
                 enabled := true,
                 releaseListeners := s.ns.releaseListeners ++ [id] },
         pf := { s.pf with
                 activeLocks := s.pf.activeLocks ++ [id],
                 nextLockId := id + 1 } }, none)
    | .error e =>
      ({ s with ns := { s.ns with enabled := false } }, some e)
  | Strategy.legacy => (NoSleepJs.enableOldIOS s, none)
  | Strategy.media => NoSleepJs.enableVideoPlayback playRes s

/-- Modelled from the spec: `disable()` of the fixed-strategy dispatcher;
each arm is the corresponding arm of the source's `disable`. -/
def disableWith (st : Strategy) (s : Sys) : Option Sys :=
  match st with
  | Strategy.native => some (NoSleepJs.disableNative s)
  | Strategy.legacy => some (NoSleepJs.disableLegacy s)
  | Strategy.media => NoSleepJs.disableMedia s

/-- A page-becomes-visible transition under the fixed-strategy dispatcher:
the installed callback invokes the fixed strategy's `enable()`. -/
def visibleEventWith (st : Strategy) (lockRes playRes : Except JsErr Unit)
    (s : Sys) : Sys × Option JsErr :=
  match s.ns.visListening with
  | some true => enableWith st lockRes playRes s
  | _ => (s, none)

/-- One step of the system under the fixed-strategy dispatcher. -/
def stepWith (st : Strategy) (e : Ev) (s : Sys) : Sys :=
  match e with
  | .en lr pr => (enableWith st lr pr s).1
  | .dis => (disableWith st s).getD s
  | .rel id => releaseEvent id s
  | .vis lr pr => (visibleEventWith st lr pr s).1
  | .tick h => tickEvent h s

/-- Run a list of events under the strategy fixed once at construction. -/
def runWith (st : Strategy) (s : Sys) : List Ev → Sys
  | [] => s
  | e :: es => runWith st (stepWith st e s) es

/-- The guard under which the amended resource invariant is stated: no
platform-triggered release event, and `enable()` (also when invoked through
a visibility transition) is only called while the inhibitor is disabled. -/
def evGuard (e : Ev) (s : Sys) : Bool :=
  match e with
  | .rel _ => false
  | .en _ _ => !s.ns.enabled
  | .vis _ _ => !s.ns.enabled
  | _ => true

/-- Every event of the list satisfies `evGuard` at the state it hits. -/
def guardedRun (c : Caps) (s : Sys) : List Ev → Bool
  | [] => true
  | e :: es => evGuard e s && guardedRun c (step c e s) es

/-- Inductive invariant of the native strategy: no timer or media surface
exists, the visibility-listener field exists, and when enabled exactly the
stored sentinel is active, when disabled no sentinel is. -/
def InvNative (s : Sys) : Prop :=
  s.ns.noSleepTimer = none ∧ s.ns.media = none ∧ s.pf.timers = [] ∧
  s.ns.visListening.isSome = true ∧
  (if s.ns.enabled then ∃ id, s.ns.wakeLock = some id ∧ s.pf.activeLocks = [id]
   else s.ns.wakeLock = none ∧ s.pf.activeLocks = [])

/-- Inductive invariant of the legacy strategy: no lock or media surface,
and when enabled exactly the stored interval timer runs. -/
def InvLegacy (s : Sys) : Prop :=
  s.ns.wakeLock = none ∧ s.ns.media = none ∧ s.pf.activeLocks = [] ∧
  (if s.ns.enabled then
     ∃ tid p, s.ns.noSleepTimer = some tid ∧ s.pf.timers = [(tid, p)]
   else s.ns.noSleepTimer = none ∧ s.pf.timers = [])

/-- Inductive invariant of the media strategy: no lock or timer, the media
surface exists, and `enabled` mirrors whether it is playing. -/
def InvMedia (s : Sys) : Prop :=
  s.ns.wakeLock = none ∧ s.ns.noSleepTimer = none ∧ s.pf.activeLocks = [] ∧
  s.pf.timers = [] ∧ ∃ m, s.ns.media = some m ∧ s.ns.enabled = m.playing

/-- The strategy invariant picked by the capability answers. -/
def StratInv (c : Caps) (s : Sys) : Prop :=
  if c.native then InvNative s else if c.oldIOS then InvLegacy s else InvMedia s

/-- Capability answers: native wake-lock supported. -/
def capsNative : Caps := { native := true, oldIOS := false }

/-- Capability answers: no native support, legacy mobile signature. -/
def capsLegacy : Caps := { native := false, oldIOS := true }

/-- Capability answers: neither native support nor the legacy signature. -/
def capsMedia : Caps := { native := false, oldIOS := false }

/-- A platform answer granting the request. -/
def okRes : Except JsErr Unit := Except.ok ()

/-- A platform denial, as the wake-lock or autoplay machinery reports it. -/
def errDenied : JsErr := { name := "NotAllowedError", msg := "request denied" }

/-- The state of a native-strategy instance right after one successful
`enable()`: one sentinel held, one release listener registered. -/
def sEnabledOnce : Sys :=
  run capsNative (NoSleepJs.construct capsNative (pfInit "page"))
    [Ev.en okRes okRes]

/-- The state of a native-strategy instance after a successful `enable()`
followed by `disable()`: the visibility subscription has been removed. -/
def sAfterDisable : Sys :=
  run capsNative (NoSleepJs.construct capsNative (pfInit "page"))
    [Ev.en okRes okRes, Ev.dis]

theorem inv_construct (c : Caps) (u : String) :
    StratInv c (NoSleepJs.construct c (pfInit u)) := by
  rcases c with ⟨cn, ci⟩
  cases cn <;> cases ci <;>
    simp [StratInv, NoSleepJs.construct, InvNative, InvLegacy, InvMedia, pfInit]

theorem inv_enable (c : Caps) (lr pr : Except JsErr Unit) (s : Sys)
    (h : StratInv c s) (hen : s.ns.enabled = false) :
    StratInv c (NoSleepJs.enable c lr pr s).1 := by
  obtain ⟨⟨en, wl, vl, nt, md, rls⟩, al, nli, tms, nti, hr, nv, st⟩ := s
  simp only at hen
  subst hen
  rcases c with ⟨cn, ci⟩
  cases cn <;> cases ci <;>
    simp only [StratInv, InvNative, InvLegacy, InvMedia, if_true, if_false,
      Bool.false_eq_true, reduceIte] at h ⊢
  · -- media strategy
    obtain ⟨hwl, hnt, hal, htm, m, hmd, hpl⟩ := h
    subst hmd
    cases pr <;>
      simp_all [NoSleepJs.enable, NoSleepJs.enableVideoPlayback]
  · -- legacy strategy
    obtain ⟨hwl, hmd, hal, hnt, htm⟩ := h
    simp_all [NoSleepJs.enable, NoSleepJs.enableOldIOS, NoSleepJs.disableLegacy]
  · -- native strategy, oldIOS answer also true
    obtain ⟨hnt, hmd, htm, hvl, hwl, hal⟩ := h
    cases lr <;> simp_all [NoSleepJs.enable]
  · -- native strategy
    obtain ⟨hnt, hmd, htm, hvl, hwl, hal⟩ := h
    cases lr <;> simp_all [NoSleepJs.enable]

theorem inv_disable (c : Caps) (s : Sys) (h : StratInv c s) :
    StratInv c ((NoSleepJs.disable c s).getD s) := by
  obtain ⟨⟨en, wl, vl, nt, md, rls⟩, al, nli, tms, nti, hr, nv, st⟩ := s
  rcases c with ⟨cn, ci⟩
  cases cn <;> cases ci <;>
    simp only [StratInv, InvNative, InvLegacy, InvMedia, if_true, if_false,
      Bool.false_eq_true, reduceIte] at h ⊢
  · -- media strategy
    obtain ⟨hwl, hnt, hal, htm, m, hmd, hpl⟩ := h
    subst hmd
    simp_all [NoSleepJs.disable, NoSleepJs.disableMedia]
  · -- legacy strategy
    obtain ⟨hwl, hmd, hal, hrest⟩ := h
    cases en <;> simp only [Bool.false_eq_true, Bool.true_eq_false, reduceIte] at hrest
    · obtain ⟨hnt, htm⟩ := hrest
      simp_all [NoSleepJs.disable, NoSleepJs.disableLegacy]
    · obtain ⟨tid, p, hnt, htm⟩ := hrest
      subst hnt
      simp_all [NoSleepJs.disable, NoSleepJs.disableLegacy]
  · -- native strategy, oldIOS answer also true
    obtain ⟨hnt, hmd, htm, hvl, hrest⟩ := h
    cases en <;> simp only [Bool.false_eq_true, Bool.true_eq_false, reduceIte] at hrest
    · obtain ⟨hwl, hal⟩ := hrest
      subst hwl
      rcases vl with _ | b <;> simp_all [NoSleepJs.disable, NoSleepJs.disableNative]
    · obtain ⟨id, hwl, hal⟩ := hrest
      subst hwl
      rcases vl with _ | b <;> simp_all [NoSleepJs.disable, NoSleepJs.disableNative]
  · -- native strategy
    obtain ⟨hnt, hmd, htm, hvl, hrest⟩ := h
    cases en <;> simp only [Bool.false_eq_true, Bool.true_eq_false, reduceIte] at hrest
    · obtain ⟨hwl, hal⟩ := hrest
      subst hwl
      rcases vl with _ | b <;> simp_all [NoSleepJs.disable, NoSleepJs.disableNative]
    · obtain ⟨id, hwl, hal⟩ := hrest
      subst hwl
      rcases vl with _ | b <;> simp_all [NoSleepJs.disable, NoSleepJs.disableNative]

theorem inv_tick (c : Caps) (hid : Bool) (s : Sys) (h : StratInv c s) :
    StratInv c (tickEvent hid s) := by
  obtain ⟨⟨en, wl, vl, nt, md, rls⟩, al, nli, tms, nti, hr, nv, st⟩ := s
  rcases c with ⟨cn, ci⟩
  unfold tickEvent
  cases cn <;> cases ci <;> cases hid <;>
    simp only [StratInv, InvNative, InvLegacy, InvMedia] at h ⊢ <;>
    split <;> simp_all <;> split <;> simp_all

theorem inv_vis (c : Caps) (lr pr : Except JsErr Unit) (s : Sys)
    (h : StratInv c s) (hen : s.ns.enabled = false) :
    StratInv c (visibleEvent c lr pr s).1 := by
  unfold visibleEvent
  rcases hv : s.ns.visListening with _ | b
  · simpa [hv] using h
  · cases b
    · simpa [hv] using h
    · simpa [hv] using inv_enable c lr pr s h hen

theorem inv_step (c : Caps) (e : Ev) (s : Sys)
    (h : StratInv c s) (hg : evGuard e s = true) :
    StratInv c (step c e s) := by
  cases e with
  | en lr pr =>
    simp only [evGuard, Bool.not_eq_true'] at hg
    exact inv_enable c lr pr s h hg
  | dis => exact inv_disable c s h
  | rel id => simp [evGuard] at hg
  | vis lr pr =>
    simp only [evGuard, Bool.not_eq_true'] at hg
    exact inv_vis c lr pr s h hg
  | tick hid => exact inv_tick c hid s h

theorem inv_run (c : Caps) (evs : List Ev) (s : Sys)
    (h : StratInv c s) (hg : guardedRun c s evs = true) :
    StratInv c (run c s evs) := by
  induction evs generalizing s with
  | nil => simpa [run] using h
  | cons e es ih =>
    simp only [guardedRun, Bool.and_eq_true] at hg
    exact ih (step c e s) (inv_step c e s h hg.1) hg.2

theorem inv_resources (c : Caps) (s : Sys) (h : StratInv c s) :
    activeResources s ≤ 1 ∧ (s.ns.enabled = true ↔ activeResources s = 1) := by
  obtain ⟨⟨en, wl, vl, nt, md, rls⟩, al, nli, tms, nti, hr, nv, st⟩ := s
  rcases c with ⟨cn, ci⟩
  cases cn <;> cases ci <;>
    simp only [StratInv, InvNative, InvLegacy, InvMedia, if_true, if_false,
      Bool.false_eq_true, reduceIte] at h
  · obtain ⟨hwl, hnt, hal, htm, m, hmd, hpl⟩ := h
    subst hmd
    cases en <;> simp_all [activeResources]
  · obtain ⟨hwl, hmd, hal, hrest⟩ := h
    cases en <;> simp only [Bool.false_eq_true, Bool.true_eq_false, reduceIte] at hrest
    · obtain ⟨hnt, htm⟩ := hrest
      simp_all [activeResources]
    · obtain ⟨tid, p, hnt, htm⟩ := hrest
      simp_all [activeResources]
  · obtain ⟨hnt, hmd, htm, hvl, hrest⟩ := h
    cases en <;> simp only [Bool.false_eq_true, Bool.true_eq_false, reduceIte] at hrest
    · obtain ⟨hwl, hal⟩ := hrest
      simp_all [activeResources]
    · obtain ⟨id, hwl, hal⟩ := hrest
      simp_all [activeResources]
  · obtain ⟨hnt, hmd, htm, hvl, hrest⟩ := h
    cases en <;> simp only [Bool.false_eq_true, Bool.true_eq_false, reduceIte] at hrest
    · obtain ⟨hwl, hal⟩ := hrest
      simp_all [activeResources]
    · obtain ⟨id, hwl, hal⟩ := hrest
      simp_all [activeResources]

/-- Claim C1, counterexample.  With the native strategy, after a successful
`enable()` a platform-triggered release of the sentinel leaves `enabled`
still `true` while no underlying resource is active any more, so "`enabled`
is true iff that resource is currently active" fails on this run. -/
theorem c1_counterexample :
    ¬ ((run capsNative (NoSleepJs.construct capsNative (pfInit "page"))
          [Ev.en okRes okRes, Ev.rel 0]).ns.enabled = true ↔
       activeResources (run capsNative (NoSleepJs.construct capsNative (pfInit "page"))
          [Ev.en okRes okRes, Ev.rel 0]) = 1) := by
  decide

/-- Claim C1 (amended): for every capability answer, initial page URL and
sequence of `enable()`/`disable()` calls, visibility transitions and timer
ticks in which no platform release event fires and `enable()` is only
invoked while the inhibitor is disabled, at most one underlying resource
(lock sentinel, interval timer, or playing media) is active at any time,
and `enabled` is true iff exactly one such resource is active. -/
theorem c1_resource_invariant (c : Caps) (u : String) (evs : List Ev)
    (hg : guardedRun c (NoSleepJs.construct c (pfInit u)) evs = true) :
    activeResources (run c (NoSleepJs.construct c (pfInit u)) evs) ≤ 1 ∧
    ((run c (NoSleepJs.construct c (pfInit u)) evs).ns.enabled = true ↔
      activeResources (run c (NoSleepJs.construct c (pfInit u)) evs) = 1) :=
  inv_resources c _ (inv_run c evs _ (inv_construct c u) hg)

/-- Claim C1 witness: a concrete guarded run (enable, release-free) of the
native strategy on which the amended invariant is verified. -/
theorem c1_resource_invariant_witness :
    guardedRun capsNative (NoSleepJs.construct capsNative (pfInit "page"))
      [Ev.en okRes okRes, Ev.dis, Ev.en okRes okRes] = true ∧
    (activeResources (run capsNative (NoSleepJs.construct capsNative (pfInit "page"))
        [Ev.en okRes okRes, Ev.dis, Ev.en okRes okRes]) ≤ 1 ∧
     ((run capsNative (NoSleepJs.construct capsNative (pfInit "page"))
        [Ev.en okRes okRes, Ev.dis, Ev.en okRes okRes]).ns.enabled = true ↔
      activeResources (run capsNative (NoSleepJs.construct capsNative (pfInit "page"))
        [Ev.en okRes okRes, Ev.dis, Ev.en okRes okRes]) = 1)) :=
  ⟨by decide, c1_resource_invariant capsNative "page"
    [Ev.en okRes okRes, Ev.dis, Ev.en okRes okRes] (by decide)⟩

/-- Claim C2, counterexample.  `enable()` and `disable()` call the
capability predicates again at every invocation (src lines 58, 69, 123,
131); nothing about the chosen strategy is consulted.  Concretely: an
instance constructed while the native wake-lock answer was `true` (so its
construction-time strategy is Native), on an `enable()` issued after the
answers changed to the legacy signature, starts the legacy interval timer
and requests no lock — it does not dispatch through the strategy chosen at
construction. -/
theorem c2_counterexample :
    (NoSleepJs.enable capsLegacy okRes okRes
       (NoSleepJs.construct capsNative (pfInit "page"))).1.pf.timers = [(0, 15000)] ∧
    (NoSleepJs.enable capsLegacy okRes okRes
       (NoSleepJs.construct capsNative (pfInit "page"))).1.ns.noSleepTimer = some 0 ∧
    (NoSleepJs.enable capsLegacy okRes okRes
       (NoSleepJs.construct capsNative (pfInit "page"))).1.pf.activeLocks = [] ∧
    (NoSleepJs.enable capsLegacy okRes okRes
       (NoSleepJs.construct capsNative (pfInit "page"))).1.ns.wakeLock = none := by
  decide

theorem enable_eq_enableWith (c : Caps) (lr pr : Except JsErr Unit)
    (s : Sys) :
    NoSleepJs.enable c lr pr s = enableWith (strategyOf c) lr pr s := by
  rcases c with ⟨cn, ci⟩
  cases cn <;> cases ci <;> cases lr <;> rfl

theorem disable_eq_disableWith (c : Caps) (s : Sys) :
    NoSleepJs.disable c s = disableWith (strategyOf c) s := by
  rcases c with ⟨cn, ci⟩
  cases cn <;> cases ci <;> rfl

theorem step_eq_stepWith (c : Caps) (e : Ev) (s : Sys) :
    step c e s = stepWith (strategyOf c) e s := by
  cases e with
  | en lr pr => simp [step, stepWith, enable_eq_enableWith]
  | dis => simp [step, stepWith, disable_eq_disableWith]
  | rel id => rfl
  | vis lr pr =>
    simp only [step, stepWith, visibleEvent, visibleEventWith]
    rcases hv : s.ns.visListening with _ | b
    · simp [hv]
    · cases b
      · simp [hv]
      · simp [hv, enable_eq_enableWith]
  | tick hid => rfl

theorem run_eq_runWith (c : Caps) (evs : List Ev) (s : Sys) :
    run c s evs = runWith (strategyOf c) s evs := by
  induction evs generalizing s with
  | nil => rfl
  | cons e es ih =>
    simp only [run, runWith, step_eq_stepWith]
    exact ih (stepWith (strategyOf c) e s)

/-- Claim C2 (amended): the capability predicates are re-evaluated on every
`enable()`/`disable()` call and every call dispatches through the strategy
selected by the answers current at that call, on every state and for every
pair of call-time answers — `enable()` and `disable()` each coincide with
the arm the dispatch table picks for the call-time answers, never with a
strategy fixed at construction (the counterexample shows the two differ
when the answers change).  Corollary: when the environment's answers never
change after construction, every event of every run — each `enable()` and
`disable()` call included — dispatches through the construction-time
strategy, i.e. the run equals the run of the fixed-strategy dispatcher
bound once at construction. -/
theorem c2_dispatch_follows_call_time_answers (c : Caps)
    (lr pr : Except JsErr Unit) (s : Sys) (evs : List Ev) (u : String) :
    NoSleepJs.enable c lr pr s = enableWith (strategyOf c) lr pr s ∧
    NoSleepJs.disable c s = disableWith (strategyOf c) s ∧
    run c s evs = runWith (strategyOf c) s evs ∧
    run c (NoSleepJs.construct c (pfInit u)) evs
      = runWith (strategyOf c) (NoSleepJs.construct c (pfInit u)) evs :=
  ⟨enable_eq_enableWith c lr pr s, disable_eq_disableWith c s,
   run_eq_runWith c evs s,
   run_eq_runWith c evs (NoSleepJs.construct c (pfInit u))⟩

/-- Claim C3, counterexample.  `_onWakeLockRelease` (src lines 80-82) only
calls `console.log`; it does not touch `this.enabled`.  After a successful
native `enable()` and a platform-triggered release of the sentinel, the
instance still reports `enabled = true`: the observable state does NOT move
to Disabled. -/
theorem c3_counterexample :
    (run capsNative (NoSleepJs.construct capsNative (pfInit "page"))
       [Ev.en okRes okRes, Ev.rel 0]).ns.isEnabled = true ∧
    (run capsNative (NoSleepJs.construct capsNative (pfInit "page"))
       [Ev.en okRes okRes, Ev.rel 0]).pf.activeLocks = [] := by
  decide

/-- Claim C3 (amended): a platform-triggered release event leaves the whole
instance state unchanged — `_onWakeLockRelease` only logs, so `isEnabled`
keeps the value it had (it does not reflect the release) — and the system
does not call `enable()` again in response: no new sentinel is requested
(the platform's fresh-sentinel counter is untouched) and the only change is
that the platform drops the released sentinel. -/
theorem c3_release_only_logs (id : Nat) (s : Sys) :
    (releaseEvent id s).ns = s.ns ∧
    (releaseEvent id s).ns.isEnabled = s.ns.isEnabled ∧
    (releaseEvent id s).pf.nextLockId = s.pf.nextLockId ∧
    (releaseEvent id s).pf.activeLocks
      = s.pf.activeLocks.filter (fun l => l != id) := by
  unfold releaseEvent NoSleepJs.onWakeLockRelease
  split <;> simp

/-- Claim C4, counterexample.  `enable()` (src lines 57-74) never registers
the visibility listener; it was registered once by the constructor.  After
`enable(); disable(); enable()` on a native-strategy instance the second
successful `enable()` leaves the visibility subscription removed, so
"every enable() call registers the Visibility Notifier" fails, and
registration/deregistration is not symmetric. -/
theorem c4_counterexample :
    (run capsNative (NoSleepJs.construct capsNative (pfInit "page"))
       [Ev.en okRes okRes, Ev.dis, Ev.en okRes okRes]).ns.visListening
      = some false ∧
    (run capsNative (NoSleepJs.construct capsNative (pfInit "page"))
       [Ev.en okRes okRes, Ev.dis, Ev.en okRes okRes]).ns.isEnabled = true := by
  decide

/-- Claim C4 (amended): the visibility subscription is registered exactly
once, by the constructor of a native-strategy instance; every `disable()`
removes it (unconditionally, whenever the listener object exists); and no
`enable()` call ever registers or re-registers it — `enable()` leaves the
subscription state exactly as it found it. -/
theorem c4_visibility_registration (c : Caps) (u : String)
    (lr pr : Except JsErr Unit) (s : Sys) (hn : c.native = true) :
    (NoSleepJs.construct c (pfInit u)).ns.visListening = some true ∧
    (NoSleepJs.enable c lr pr s).1.ns.visListening = s.ns.visListening ∧
    ((NoSleepJs.disable c s).getD s).ns.visListening
      = s.ns.visListening.map (fun _ => false) := by
  refine ⟨by simp [NoSleepJs.construct, hn], ?_, ?_⟩
  · cases lr <;> simp [NoSleepJs.enable, hn]
  · obtain ⟨⟨en, wl, vl, nt, md, rls⟩, pf⟩ := s
    rcases vl with _ | b <;>
      simp [NoSleepJs.disable, NoSleepJs.disableNative, hn]

/-- Claim C4 witness: the amended statement verified on a concrete
native-strategy instance that is enabled and then disabled. -/
theorem c4_visibility_registration_witness :
    capsNative.native = true ∧
    ((NoSleepJs.construct capsNative (pfInit "page")).ns.visListening = some true ∧
     (NoSleepJs.enable capsNative okRes okRes
        (run capsNative (NoSleepJs.construct capsNative (pfInit "page"))
          [Ev.en okRes okRes])).1.ns.visListening
       = (run capsNative (NoSleepJs.construct capsNative (pfInit "page"))
          [Ev.en okRes okRes]).ns.visListening ∧
     ((NoSleepJs.disable capsNative
         (run capsNative (NoSleepJs.construct capsNative (pfInit "page"))
           [Ev.en okRes okRes])).getD
         (run capsNative (NoSleepJs.construct capsNative (pfInit "page"))
           [Ev.en okRes okRes])).ns.visListening
       = (run capsNative (NoSleepJs.construct capsNative (pfInit "page"))
           [Ev.en okRes okRes]).ns.visListening.map (fun _ => false)) :=
  ⟨by decide,
   c4_visibility_registration capsNative "page" okRes okRes
     (run capsNative (NoSleepJs.construct capsNative (pfInit "page"))
       [Ev.en okRes okRes]) (by decide)⟩

/-- Claim C5: on an instance whose media surface exists whenever the
call-time answers select the media strategy (which every instance operated
under unchanged answers satisfies), `enable()` rejects with error `e`
exactly when the native lock request was denied with `e` or media playback
was blocked with `e` — the platform's own error value, with its name
(classification) and message, is propagated unchanged — and any failing
`enable()` leaves the inhibitor disabled. -/
theorem c5_enable_failure_modes (c : Caps) (lr pr : Except JsErr Unit)
    (s : Sys)
    (hm : c.native = false → c.oldIOS = false → s.ns.media.isSome = true) :
    (∀ e : JsErr, (NoSleepJs.enable c lr pr s).2 = some e ↔
       ((c.native = true ∧ lr = Except.error e) ∨
        (c.native = false ∧ c.oldIOS = false ∧ pr = Except.error e))) ∧
    ((NoSleepJs.enable c lr pr s).2.isSome = true →
      (NoSleepJs.enable c lr pr s).1.ns.isEnabled = false) := by
  rcases c with ⟨cn, ci⟩
  cases cn <;> cases ci
  · -- media strategy
    rcases hmd : s.ns.media with _ | m
    · simp [hmd] at hm
    · cases pr <;>
        simp_all [NoSleepJs.enable, NoSleepJs.enableVideoPlayback,
          NoSleepJs.isEnabled]
  · -- legacy strategy
    simp [NoSleepJs.enable, NoSleepJs.enableOldIOS]
  · -- native, oldIOS answer also true
    cases lr <;> simp [NoSleepJs.enable, NoSleepJs.isEnabled]
  · -- native
    cases lr <;> simp [NoSleepJs.enable, NoSleepJs.isEnabled]

/-- Claim C5 witness: a blocked playback on a fresh media-strategy instance
rejects with exactly the platform's error and leaves the inhibitor
disabled. -/
theorem c5_enable_failure_modes_witness :
    (capsMedia.native = false → capsMedia.oldIOS = false →
      (NoSleepJs.construct capsMedia (pfInit "page")).ns.media.isSome = true) ∧
    ((∀ e : JsErr, (NoSleepJs.enable capsMedia okRes (Except.error errDenied)
        (NoSleepJs.construct capsMedia (pfInit "page"))).2 = some e ↔
       ((capsMedia.native = true ∧ okRes = Except.error e) ∨
        (capsMedia.native = false ∧ capsMedia.oldIOS = false ∧
         (Except.error errDenied : Except JsErr Unit) = Except.error e))) ∧
     ((NoSleepJs.enable capsMedia okRes (Except.error errDenied)
        (NoSleepJs.construct capsMedia (pfInit "page"))).2.isSome = true →
      (NoSleepJs.enable capsMedia okRes (Except.error errDenied)
        (NoSleepJs.construct capsMedia (pfInit "page"))).1.ns.isEnabled = false)) :=
  ⟨by decide,
   c5_enable_failure_modes capsMedia okRes (Except.error errDenied)
     (NoSleepJs.construct capsMedia (pfInit "page")) (by decide)⟩

theorem disable_some_of_inv (c : Caps) (s : Sys) (h : StratInv c s) :
    NoSleepJs.disable c s
      = some ((NoSleepJs.disable c s).getD s) := by
  rcases c with ⟨cn, ci⟩
  cases cn <;> cases ci <;>
    simp only [StratInv, InvNative, InvLegacy, InvMedia, if_true, if_false,
      Bool.false_eq_true, reduceIte] at h
  · obtain ⟨hwl, hnt, hal, htm, m, hmd, hpl⟩ := h
    simp [NoSleepJs.disable, NoSleepJs.disableMedia, hmd]
  · simp [NoSleepJs.disable]
  · simp [NoSleepJs.disable]
  · simp [NoSleepJs.disable]

theorem disable_enabled_false (c : Caps) (s : Sys) (h : StratInv c s) :
    ((NoSleepJs.disable c s).getD s).ns.enabled = false := by
  obtain ⟨⟨en, wl, vl, nt, md, rls⟩, al, nli, tms, nti, hr, nv, st⟩ := s
  rcases c with ⟨cn, ci⟩
  cases cn <;> cases ci
  · rcases hmd : md with _ | m
    · subst hmd
      simp only [StratInv, InvNative, InvLegacy, InvMedia, if_true, if_false,
        Bool.false_eq_true, reduceIte] at h
      obtain ⟨hwl, hnt, hal, htm, m, hmd, hpl⟩ := h
      exact absurd hmd (by simp)
    · subst hmd
      simp [NoSleepJs.disable, NoSleepJs.disableMedia]
  · rcases nt with _ | tid <;> simp [NoSleepJs.disable, NoSleepJs.disableLegacy]
  · simp [NoSleepJs.disable, NoSleepJs.disableNative]
  · simp [NoSleepJs.disable, NoSleepJs.disableNative]

theorem inv_disabled_resources (c : Caps) (s : Sys) (h : StratInv c s)
    (hen : s.ns.enabled = false) :
    activeResources s = 0 ∧ s.ns.wakeLock = none ∧ s.ns.noSleepTimer = none := by
  obtain ⟨⟨en, wl, vl, nt, md, rls⟩, al, nli, tms, nti, hr, nv, st⟩ := s
  simp only at hen
  subst hen
  rcases c with ⟨cn, ci⟩
  cases cn <;> cases ci <;>
    simp only [StratInv, InvNative, InvLegacy, InvMedia, if_true, if_false,
      Bool.false_eq_true, reduceIte] at h
  · obtain ⟨hwl, hnt, hal, htm, m, hmd, hpl⟩ := h
    subst hmd
    simp_all [activeResources]
  · obtain ⟨hwl, hmd, hal, hnt, htm⟩ := h
    simp_all [activeResources]
  · obtain ⟨hnt, hmd, htm, hvl, hwl, hal⟩ := h
    simp_all [activeResources]
  · obtain ⟨hnt, hmd, htm, hvl, hwl, hal⟩ := h
    simp_all [activeResources]

/-- Claim C6: from any reachable disabled state of any strategy, a
successful `enable()` followed immediately by `disable()` gives
`isEnabled = false` with no leaked resource: no wake-lock sentinel is held
by the platform, no interval timer runs, the media surface is not playing
(all counted by `activeResources`), and the handle fields are cleared. -/
theorem c6_enable_then_disable_clean (c : Caps) (lr pr : Except JsErr Unit)
    (s : Sys) (h : StratInv c s) (hen : s.ns.enabled = false)
    (hok : (NoSleepJs.enable c lr pr s).2 = none) :
    NoSleepJs.disable c (NoSleepJs.enable c lr pr s).1
      = some ((NoSleepJs.disable c (NoSleepJs.enable c lr pr s).1).getD
              (NoSleepJs.enable c lr pr s).1) ∧
    ((NoSleepJs.disable c (NoSleepJs.enable c lr pr s).1).getD
        (NoSleepJs.enable c lr pr s).1).ns.isEnabled = false ∧
    activeResources ((NoSleepJs.disable c (NoSleepJs.enable c lr pr s).1).getD
        (NoSleepJs.enable c lr pr s).1) = 0 ∧
    ((NoSleepJs.disable c (NoSleepJs.enable c lr pr s).1).getD
        (NoSleepJs.enable c lr pr s).1).ns.wakeLock = none ∧
    ((NoSleepJs.disable c (NoSleepJs.enable c lr pr s).1).getD
        (NoSleepJs.enable c lr pr s).1).ns.noSleepTimer = none := by
  have h1 : StratInv c (NoSleepJs.enable c lr pr s).1 := inv_enable c lr pr s h hen
  have h2 : StratInv c ((NoSleepJs.disable c (NoSleepJs.enable c lr pr s).1).getD
      (NoSleepJs.enable c lr pr s).1) := inv_disable c _ h1
  have h3 := disable_enabled_false c _ h1
  have h4 := inv_disabled_resources c _ h2 h3
  exact ⟨disable_some_of_inv c _ h1, by simpa [NoSleepJs.isEnabled] using h3,
    h4.1, h4.2.1, h4.2.2⟩

/-- Claim C6 witness: the property verified for the legacy strategy on a
fresh instance. -/
theorem c6_enable_then_disable_clean_witness :
    StratInv capsLegacy (NoSleepJs.construct capsLegacy (pfInit "page")) ∧
    (NoSleepJs.construct capsLegacy (pfInit "page")).ns.enabled = false ∧
    (NoSleepJs.enable capsLegacy okRes okRes
      (NoSleepJs.construct capsLegacy (pfInit "page"))).2 = none ∧
    (((NoSleepJs.disable capsLegacy (NoSleepJs.enable capsLegacy okRes okRes
        (NoSleepJs.construct capsLegacy (pfInit "page"))).1).getD
        (NoSleepJs.enable capsLegacy okRes okRes
        (NoSleepJs.construct capsLegacy (pfInit "page"))).1).ns.isEnabled = false ∧
     activeResources ((NoSleepJs.disable capsLegacy
        (NoSleepJs.enable capsLegacy okRes okRes
        (NoSleepJs.construct capsLegacy (pfInit "page"))).1).getD
        (NoSleepJs.enable capsLegacy okRes okRes
        (NoSleepJs.construct capsLegacy (pfInit "page"))).1) = 0) :=
  ⟨inv_construct capsLegacy "page", by decide, by decide,
   (c6_enable_then_disable_clean capsLegacy okRes okRes
      (NoSleepJs.construct capsLegacy (pfInit "page"))
      (inv_construct capsLegacy "page") (by decide) (by decide)).2.1,
   (c6_enable_then_disable_clean capsLegacy okRes okRes
      (NoSleepJs.construct capsLegacy (pfInit "page"))
      (inv_construct capsLegacy "page") (by decide) (by decide)).2.2.1⟩

/-- Claim C7: `disable()` never fails and is idempotent: on any instance
whose media surface exists whenever the call-time answers select the media
strategy — in particular on one that was never enabled — `disable()` does
not throw, leaves `isEnabled = false`, and running `disable()` once more
returns exactly the same state. -/
theorem c7_disable_total_idempotent (c : Caps) (s : Sys)
    (hm : c.native = false → c.oldIOS = false → s.ns.media.isSome = true) :
    ∃ s1, NoSleepJs.disable c s = some s1 ∧ s1.ns.isEnabled = false ∧
      NoSleepJs.disable c s1 = some s1 := by
  obtain ⟨⟨en, wl, vl, nt, md, rls⟩, al, nli, tms, nti, hr, nv, st⟩ := s
  rcases c with ⟨cn, ci⟩
  cases cn <;> cases ci
  · rcases md with _ | ⟨pl, ml⟩
    · simp at hm
    · exact ⟨_, rfl, rfl, rfl⟩
  · rcases nt with _ | tid <;> exact ⟨_, rfl, rfl, rfl⟩
  · rcases wl with _ | id <;> rcases vl with _ | b <;> exact ⟨_, rfl, rfl, rfl⟩
  · rcases wl with _ | id <;> rcases vl with _ | b <;> exact ⟨_, rfl, rfl, rfl⟩

/-- Claim C7 witness: disabling a never-enabled media-strategy instance. -/
theorem c7_disable_total_idempotent_witness :
    (capsMedia.native = false → capsMedia.oldIOS = false →
      (NoSleepJs.construct capsMedia (pfInit "page")).ns.media.isSome = true) ∧
    ∃ s1, NoSleepJs.disable capsMedia
        (NoSleepJs.construct capsMedia (pfInit "page")) = some s1 ∧
      s1.ns.isEnabled = false ∧ NoSleepJs.disable capsMedia s1 = some s1 :=
  ⟨by decide,
   c7_disable_total_idempotent capsMedia
     (NoSleepJs.construct capsMedia (pfInit "page")) (by decide)⟩

/-- Claim C8: with legacy call-time answers, `enable()` never rejects (its
one step is synchronous: `enabled` is set in the same call), reports
`isEnabled = true`, first force-disables (any previously stored interval
timer is gone from the platform afterwards) and starts a recurring timer
with the fixed 15000 ms period; and a tick of the interval callback while
the page is hidden changes nothing, while a tick while visible navigates
exactly once to the fragment-stripped URL and schedules one abort of the
page load. -/
theorem c8_legacy_enable_behavior (c : Caps) (lr pr : Except JsErr Unit)
    (s s2 : Sys) (hn : c.native = false) (ho : c.oldIOS = true)
    (hne : s2.pf.timers ≠ []) :
    (NoSleepJs.enable c lr pr s).2 = none ∧
    (NoSleepJs.enable c lr pr s).1.ns.isEnabled = true ∧
    (∃ tid, (NoSleepJs.enable c lr pr s).1.ns.noSleepTimer = some tid ∧
       (tid, 15000) ∈ (NoSleepJs.enable c lr pr s).1.pf.timers ∧
       ∀ tid0 p, s.ns.noSleepTimer = some tid0 → tid0 ≠ tid →
         (tid0, p) ∉ (NoSleepJs.enable c lr pr s).1.pf.timers) ∧
    tickEvent true s2 = s2 ∧
    (tickEvent false s2).pf.href = stripFragment s2.pf.href ∧
    (tickEvent false s2).pf.navigations = s2.pf.navigations + 1 ∧
    (tickEvent false s2).pf.stops = s2.pf.stops + 1 := by
  refine ⟨?_, ?_, ?_, ?_, ?_, ?_, ?_⟩
  · simp [NoSleepJs.enable, hn, ho]
  · simp [NoSleepJs.enable, hn, ho, NoSleepJs.enableOldIOS, NoSleepJs.isEnabled]
  · obtain ⟨⟨en, wl, vl, nt, md, rls⟩, al, nli, tms, nti, hr, nv, st⟩ := s
    rcases nt with _ | tid0
    · refine ⟨nti, ?_, ?_, ?_⟩
      · simp [NoSleepJs.enable, hn, ho, NoSleepJs.enableOldIOS, NoSleepJs.disableLegacy]
      · simp [NoSleepJs.enable, hn, ho, NoSleepJs.enableOldIOS, NoSleepJs.disableLegacy]
      · intro t p hsome
        simp at hsome
    · refine ⟨nti, ?_, ?_, ?_⟩
      · simp [NoSleepJs.enable, hn, ho, NoSleepJs.enableOldIOS, NoSleepJs.disableLegacy]
      · simp [NoSleepJs.enable, hn, ho, NoSleepJs.enableOldIOS, NoSleepJs.disableLegacy]
      · intro t p hsome hne2
        simp only [Option.some.injEq] at hsome
        subst hsome
        simp [NoSleepJs.enable, hn, ho, NoSleepJs.enableOldIOS,
          NoSleepJs.disableLegacy, List.mem_append, List.mem_filter, hne2]
  · obtain ⟨ns2, pf2⟩ := s2
    rcases htm : pf2.timers with _ | ⟨t, ts⟩
    · exact absurd htm hne
    · simp [tickEvent, htm]
  · obtain ⟨ns2, pf2⟩ := s2
    rcases htm : pf2.timers with _ | ⟨t, ts⟩
    · exact absurd htm hne
    · simp [tickEvent, htm]
  · obtain ⟨ns2, pf2⟩ := s2
    rcases htm : pf2.timers with _ | ⟨t, ts⟩
    · exact absurd htm hne
    · simp [tickEvent, htm]
  · obtain ⟨ns2, pf2⟩ := s2
    rcases htm : pf2.timers with _ | ⟨t, ts⟩
    · exact absurd htm hne
    · simp [tickEvent, htm]

/-- Claim C8 witness: a fresh legacy instance enabled once, with the tick
facts checked on the resulting state (which has a running timer). -/
theorem c8_legacy_enable_behavior_witness :
    capsLegacy.native = false ∧ capsLegacy.oldIOS = true ∧
    (NoSleepJs.enable capsLegacy okRes okRes
      (NoSleepJs.construct capsLegacy (pfInit "page#frag"))).1.pf.timers ≠ [] ∧
    ((NoSleepJs.enable capsLegacy okRes okRes
       (NoSleepJs.construct capsLegacy (pfInit "page#frag"))).2 = none ∧
     (NoSleepJs.enable capsLegacy okRes okRes
       (NoSleepJs.construct capsLegacy (pfInit "page#frag"))).1.ns.isEnabled = true ∧
     (∃ tid, (NoSleepJs.enable capsLegacy okRes okRes
         (NoSleepJs.construct capsLegacy (pfInit "page#frag"))).1.ns.noSleepTimer
           = some tid ∧
       (tid, 15000) ∈ (NoSleepJs.enable capsLegacy okRes okRes
         (NoSleepJs.construct capsLegacy (pfInit "page#frag"))).1.pf.timers ∧
       ∀ tid0 p, (NoSleepJs.construct capsLegacy
           (pfInit "page#frag")).ns.noSleepTimer = some tid0 → tid0 ≠ tid →
         (tid0, p) ∉ (NoSleepJs.enable capsLegacy okRes okRes
           (NoSleepJs.construct capsLegacy (pfInit "page#frag"))).1.pf.timers) ∧
     tickEvent true (NoSleepJs.enable capsLegacy okRes okRes
       (NoSleepJs.construct capsLegacy (pfInit "page#frag"))).1
         = (NoSleepJs.enable capsLegacy okRes okRes
       (NoSleepJs.construct capsLegacy (pfInit "page#frag"))).1 ∧
     (tickEvent false (NoSleepJs.enable capsLegacy okRes okRes
       (NoSleepJs.construct capsLegacy (pfInit "page#frag"))).1).pf.href
         = stripFragment (NoSleepJs.enable capsLegacy okRes okRes
       (NoSleepJs.construct capsLegacy (pfInit "page#frag"))).1.pf.href ∧
     (tickEvent false (NoSleepJs.enable capsLegacy okRes okRes
       (NoSleepJs.construct capsLegacy (pfInit "page#frag"))).1).pf.navigations
         = (NoSleepJs.enable capsLegacy okRes okRes
       (NoSleepJs.construct capsLegacy (pfInit "page#frag"))).1.pf.navigations + 1 ∧
     (tickEvent false (NoSleepJs.enable capsLegacy okRes okRes
       (NoSleepJs.construct capsLegacy (pfInit "page#frag"))).1).pf.stops
         = (NoSleepJs.enable capsLegacy okRes okRes
       (NoSleepJs.construct capsLegacy (pfInit "page#frag"))).1.pf.stops + 1) :=
  ⟨by decide, by decide, by decide,
   c8_legacy_enable_behavior capsLegacy okRes okRes
     (NoSleepJs.construct capsLegacy (pfInit "page#frag"))
     (NoSleepJs.enable capsLegacy okRes okRes
       (NoSleepJs.construct capsLegacy (pfInit "page#frag"))).1
     (by decide) (by decide) (by decide)⟩

theorem vis_off_step (c : Caps) (e : Ev) (s : Sys) (hn : c.native = true)
    (hoff : s.ns.visListening ≠ some true) :
    (step c e s).ns.visListening ≠ some true := by
  cases e with
  | en lr pr =>
    cases lr <;> simp [step, NoSleepJs.enable, hn, hoff]
  | dis =>
    obtain ⟨⟨en, wl, vl, nt, md, rls⟩, pf⟩ := s
    rcases vl with _ | b <;>
      simp [step, NoSleepJs.disable, NoSleepJs.disableNative, hn]
  | rel id =>
    simp only [step, releaseEvent, NoSleepJs.onWakeLockRelease]
    split <;> simpa using hoff
  | vis lr pr =>
    simp only [step, visibleEvent]
    rcases hv : s.ns.visListening with _ | b
    · simpa [hv] using hoff
    · cases b
      · simpa [hv] using hoff
      · exact absurd hv hoff
  | tick hid =>
    simp only [step, tickEvent]
    split
    · exact hoff
    · split
      · exact hoff
      · simpa using hoff

theorem vis_off_run (c : Caps) (evs : List Ev) (s : Sys) (hn : c.native = true)
    (hoff : s.ns.visListening ≠ some true) :
    (run c s evs).ns.visListening ≠ some true := by
  induction evs generalizing s with
  | nil => simpa [run] using hoff
  | cons e es ih => exact ih (step c e s) (vis_off_step c e s hn hoff)

/-- Claim C9: on the native strategy the visibility callback (which is
`enable` bound to the instance) is installed once, by the constructor,
before any `enable()` call, so a page-becomes-visible transition triggers
`enable()` — acquiring a sentinel — even on an instance whose owner never
called `enable()`; `disable()` always leaves the subscription removed; and
once the subscription is removed (`visListening ≠ some true`) no sequence
of later events — in particular no `enable()` call — reinstalls it, and a
visibility transition no longer invokes `enable()` (it returns the state
unchanged). -/
theorem c9_visibility_listener_lifecycle (c : Caps) (u : String)
    (lr pr lr2 pr2 : Except JsErr Unit) (s s0 : Sys) (evs : List Ev)
    (hn : c.native = true) (hok : lr = Except.ok ())
    (hoff : s.ns.visListening ≠ some true) :
    (NoSleepJs.construct c (pfInit u)).ns.visListening = some true ∧
    (NoSleepJs.construct c (pfInit u)).ns.enabled = false ∧
    (visibleEvent c lr pr (NoSleepJs.construct c (pfInit u))).1.ns.isEnabled
      = true ∧
    (visibleEvent c lr pr (NoSleepJs.construct c (pfInit u))).1.ns.wakeLock
      = some 0 ∧
    ((NoSleepJs.disable c s0).getD s0).ns.visListening ≠ some true ∧
    (run c s evs).ns.visListening ≠ some true ∧
    visibleEvent c lr2 pr2 s = (s, none) := by
  subst hok
  refine ⟨by simp [NoSleepJs.construct, hn], by simp [NoSleepJs.construct, hn],
    ?_, ?_, ?_, vis_off_run c evs s hn hoff, ?_⟩
  · simp [visibleEvent, NoSleepJs.construct, hn, NoSleepJs.enable,
      NoSleepJs.isEnabled]
  · simp [visibleEvent, NoSleepJs.construct, hn, NoSleepJs.enable, pfInit]
  · obtain ⟨⟨en, wl, vl, nt, md, rls⟩, pf⟩ := s0
    rcases vl with _ | b <;>
      simp [NoSleepJs.disable, NoSleepJs.disableNative, hn]
  · simp only [visibleEvent]

/-- Claim C9 witness: the lifecycle facts verified with the removed-state
instance (after enable-then-disable) and a later event sequence containing
a visibility transition, an enable and a disable. -/
theorem c9_visibility_listener_lifecycle_witness :
    capsNative.native = true ∧ okRes = Except.ok () ∧
    sAfterDisable.ns.visListening ≠ some true ∧
    ((NoSleepJs.construct capsNative (pfInit "page")).ns.visListening
       = some true ∧
     (NoSleepJs.construct capsNative (pfInit "page")).ns.enabled = false ∧
     (visibleEvent capsNative okRes okRes
       (NoSleepJs.construct capsNative (pfInit "page"))).1.ns.isEnabled = true ∧
     (visibleEvent capsNative okRes okRes
       (NoSleepJs.construct capsNative (pfInit "page"))).1.ns.wakeLock = some 0 ∧
     ((NoSleepJs.disable capsNative sEnabledOnce).getD
        sEnabledOnce).ns.visListening ≠ some true ∧
     (run capsNative sAfterDisable
        [Ev.vis okRes okRes, Ev.en okRes okRes, Ev.dis]).ns.visListening
       ≠ some true ∧
     visibleEvent capsNative okRes okRes sAfterDisable = (sAfterDisable, none)) :=
  ⟨by decide, rfl, by decide,
   c9_visibility_listener_lifecycle capsNative "page" okRes okRes okRes okRes
     sAfterDisable sEnabledOnce [Ev.vis okRes okRes, Ev.en okRes okRes, Ev.dis]
     (by decide) rfl (by decide)⟩

/-- Claim C10: on the native strategy, from any enabled state (stored
handle `id0`, held by the platform, with `id0` distinct from the fresh
sentinel the platform will hand out next), a second successful `enable()`
overwrites `_wakeLock` with the new sentinel while the old one stays active
(it is never released), appends one more release listener, and a subsequent
`disable()` releases only the most recent handle: the old sentinel is still
active afterwards. -/
theorem c10_double_enable_leaks (c : Caps) (pr : Except JsErr Unit) (s : Sys)
    (id0 : Nat) (hn : c.native = true) (hwl : s.ns.wakeLock = some id0)
    (ha : id0 ∈ s.pf.activeLocks) (hfresh : id0 ≠ s.pf.nextLockId) :
    (NoSleepJs.enable c (Except.ok ()) pr s).1.ns.wakeLock
      = some s.pf.nextLockId ∧
    s.pf.nextLockId ∈ (NoSleepJs.enable c (Except.ok ()) pr s).1.pf.activeLocks ∧
    id0 ∈ (NoSleepJs.enable c (Except.ok ()) pr s).1.pf.activeLocks ∧
    (NoSleepJs.enable c (Except.ok ()) pr s).1.ns.releaseListeners
      = s.ns.releaseListeners ++ [s.pf.nextLockId] ∧
    id0 ∈ ((NoSleepJs.disable c (NoSleepJs.enable c (Except.ok ()) pr s).1).getD
            (NoSleepJs.enable c (Except.ok ()) pr s).1).pf.activeLocks ∧
    s.pf.nextLockId ∉
      ((NoSleepJs.disable c (NoSleepJs.enable c (Except.ok ()) pr s).1).getD
            (NoSleepJs.enable c (Except.ok ()) pr s).1).pf.activeLocks := by
  obtain ⟨⟨en, wl, vl, nt, md, rls⟩, al, nli, tms, nti, hr, nv, st⟩ := s
  simp only at hwl ha hfresh
  subst hwl
  refine ⟨?_, ?_, ?_, ?_, ?_, ?_⟩ <;>
    simp [NoSleepJs.enable, hn, NoSleepJs.disable, NoSleepJs.disableNative,
      List.mem_filter, List.mem_append, ha, hfresh]

/-- Claim C10 witness: the leak exhibited from the state after one
successful enable (sentinel 0 held, next fresh sentinel 1). -/
theorem c10_double_enable_leaks_witness :
    capsNative.native = true ∧ sEnabledOnce.ns.wakeLock = some 0 ∧
    0 ∈ sEnabledOnce.pf.activeLocks ∧ 0 ≠ sEnabledOnce.pf.nextLockId ∧
    ((NoSleepJs.enable capsNative (Except.ok ()) okRes sEnabledOnce).1.ns.wakeLock
       = some sEnabledOnce.pf.nextLockId ∧
     sEnabledOnce.pf.nextLockId ∈
       (NoSleepJs.enable capsNative (Except.ok ()) okRes sEnabledOnce).1.pf.activeLocks ∧
     0 ∈ (NoSleepJs.enable capsNative (Except.ok ()) okRes sEnabledOnce).1.pf.activeLocks ∧
     (NoSleepJs.enable capsNative (Except.ok ()) okRes sEnabledOnce).1.ns.releaseListeners
       = sEnabledOnce.ns.releaseListeners ++ [sEnabledOnce.pf.nextLockId] ∧
     0 ∈ ((NoSleepJs.disable capsNative
            (NoSleepJs.enable capsNative (Except.ok ()) okRes sEnabledOnce).1).getD
            (NoSleepJs.enable capsNative (Except.ok ()) okRes sEnabledOnce).1).pf.activeLocks ∧
     sEnabledOnce.pf.nextLockId ∉
       ((NoSleepJs.disable capsNative
            (NoSleepJs.enable capsNative (Except.ok ()) okRes sEnabledOnce).1).getD
            (NoSleepJs.enable capsNative (Except.ok ()) okRes sEnabledOnce).1).pf.activeLocks) :=
  ⟨by decide, by decide, by decide, by decide,
   c10_double_enable_leaks capsNative okRes sEnabledOnce 0
     (by decide) (by decide) (by decide) (by decide)⟩
